import Mathlib

/-!
# USB mass-storage application: block callbacks, image creation, statistics

A shallow embedding of

* `mass_storage/scenes/mass_storage_scene_work.c`
  (`file_read`, `file_write`, `file_num_blocks`,
  `mass_storage_scene_work_on_enter`, `mass_storage_scene_work_on_exit`),
* `mass_storage/scenes/mass_storage_scene_file_name.c`
  (`mass_storage_create_image`),
* `mass_storage/views/mass_storage_view.c` (`mass_storage_set_stats`),
* `mass_storage/scenes/mass_storage_scene_start.c`
  (`image_size`, `mass_storage_image_size`, `mass_storage_scene_start_on_enter`).

Machine integers are natural numbers reduced explicitly: `uint32_t` values
modulo `U32`, the `uint16_t` local of `file_read` modulo `U16`.  The storage
service the code calls (`storage_file_*`) is not part of the application; it
is modelled as an in-memory file whose calls take their outcome (success of a
seek, number of bytes really transferred) as explicit arguments, so that the
code can be examined under every outcome.
-/

namespace MassStorage

/-! ## Constants and machine integers -/

/-- One byte of file or buffer contents (`uint8_t`). -/
abbrev Byte := Fin 256

/-- Modulus of `uint32_t` arithmetic. -/
def U32 : Nat := 4294967296

/-- Modulus of `uint16_t` arithmetic. -/
def U16 : Nat := 65536

/-- Modelled from the spec: the macro `SCSI_BLOCK_SIZE`, whose header
(`helpers/mass_storage_usb.h` and the SCSI helper it includes) is not among
the sources; the spec fixes the block size at 512 bytes. -/
def SCSI_BLOCK_SIZE : Nat := 512

/-- Length of the zero buffer written by image creation, `WRITE_BUF_LEN`. -/
def WRITE_BUF_LEN : Nat := 4096

/-- The firmware macro `MIN(a, b)`, the smaller of its arguments. -/
def MIN (a b : Nat) : Nat := if a < b then a else b

/-- Subtraction of two `uint32_t` values, wrapping. -/
def sub32 (a b : Nat) : Nat := (a + U32 - b % U32) % U32

/-- Multiplication of two `uint32_t` values, wrapping. -/
def mul32 (a b : Nat) : Nat := (a * b) % U32

/-- Division of two `uint32_t` values; a zero divisor is a fault. -/
def div32 (a b : Nat) : Option Nat := if b = 0 then none else some (a / b)

/-! ## The storage service -/

/-- An open file of the storage service: its bytes and its position. -/
structure File where
  data : List Byte
  pos : Nat

/-- What the storage service does during one block callback: whether the seek
succeeds, which bytes appear in a region the seek allocates past the end of
the file, and how many bytes it transfers at most in the read or write. -/
structure Outcome where
  seek_ok : Bool
  stale : Nat → Byte
  xfer : Nat

/-- A file object just allocated and not yet opened on anything,
`storage_file_alloc`. -/
def storage_file_alloc : File := { data := [], pos := 0 }

/-- Absolute seek, `storage_file_seek(file, offset, true)`.  A successful seek
past the end of a file opened for writing grows the file to `offset`; the new
region holds whatever the medium held (`stale`).  A failed seek changes
nothing. -/
def storage_file_seek (f : File) (offset : Nat) (ok : Bool) (stale : Nat → Byte) :
    File × Bool :=
  if ok then
    ({ data := f.data ++ (List.range' f.data.length (offset - f.data.length)).map stale,
       pos := offset }, true)
  else
    (f, false)

/-- Read of `len` bytes at the position, `storage_file_read`: the bytes
obtained are limited by the request, by the end of the file and by what the
service transfers (`xfer`). -/
def storage_file_read (f : File) (len xfer : Nat) : File × List Byte :=
  let got := (f.data.drop f.pos).take (MIN len xfer)
  ({ f with pos := f.pos + got.length }, got)

/-- Write of `len` bytes of `buf` at the position, `storage_file_write`:
the service stores at most `xfer` of them and returns the number stored. -/
def storage_file_write (f : File) (buf : List Byte) (len xfer : Nat) : File × Nat :=
  let src := buf.take (MIN len xfer)
  ({ data := f.data.take f.pos ++ src ++ f.data.drop (f.pos + src.length),
     pos := f.pos + src.length }, src.length)

/-- Size of the file in bytes, `storage_file_size`. -/
def storage_file_size (f : File) : Nat := f.data.length

/-- Existence test on the chosen path, `storage_file_exists`; the path holds
either nothing or an image. -/
def storage_file_exists (image : Option (List Byte)) : Bool := image.isSome

/-- Opening an existing file, `storage_file_open(.., FSOM_OPEN_EXISTING)`:
it succeeds when the image is there and the service reports success. -/
def storage_file_open_existing (f : File) (image : Option (List Byte)) (ok : Bool) :
    File × Bool :=
  match image, ok with
  | some d, true => ({ data := d, pos := 0 }, true)
  | _, _ => (f, false)

/-- Creating a file, `storage_file_open(.., FSOM_CREATE_ALWAYS)`: on success
the file is empty, whatever the path held before. -/
def storage_file_open_create (f : File) (ok : Bool) : File × Bool :=
  if ok then ({ data := [], pos := 0 }, true) else (f, false)

/-! ## Application state -/

/-- The fields of `MassStorageApp` used by the work scene.  `file` is `none`
for a NULL pointer; `usb_mutex` and `usb` tell whether the pointer is set.
The counters are `uint32_t`: that is the type under which
`mass_storage_set_stats` receives them and the type of the `out_len` and
`len` values the callbacks add to them (the header declaring the structure is
not among the sources). -/
structure MassStorageApp where
  file : Option File
  usb_mutex : Bool
  usb : Bool
  bytes_read : Nat
  bytes_written : Nat

/-- What `file_read` hands back: its return value, the value stored through
`out_len` (`none` when nothing is stored), the bytes put in `out`, and the
application state. -/
structure ReadResult where
  ret : Bool
  out_len : Option Nat
  out : List Byte
  app : MassStorageApp

/-! ## Block callbacks (`mass_storage_scene_work.c`) -/

/-- The read callback `file_read(ctx, lba, count, out, out_len, out_cap)`.
`none` stands for the dereference of a NULL `app->file`. -/
def file_read (app : MassStorageApp) (lba count out_cap : Nat) (o : Outcome) :
    Option ReadResult :=
  match app.file with
  | none => none
  | some f =>
    match storage_file_seek f ((lba * SCSI_BLOCK_SIZE) % U32) o.seek_ok o.stale with
    | (f1, false) =>
      some { ret := false, out_len := none, out := [], app := { app with file := some f1 } }
    | (f1, true) =>
      -- uint16_t clamp = MIN(out_cap, count * SCSI_BLOCK_SIZE);
      let clamp := (MIN out_cap (count * SCSI_BLOCK_SIZE)) % U16
      match storage_file_read f1 clamp o.xfer with
      | (f2, got) =>
        some { ret := decide (got.length = clamp),
               out_len := some got.length,
               out := got,
               app := { app with file := some f2,
                                 bytes_read := (app.bytes_read + got.length) % U32 } }

/-- The write callback `file_write(ctx, lba, count, buf, len)`.
`none` stands for the dereference of a NULL `app->file`. -/
def file_write (app : MassStorageApp) (lba count : Nat) (buf : List Byte) (len : Nat)
    (o : Outcome) : Option (Bool × MassStorageApp) :=
  if len ≠ count * SCSI_BLOCK_SIZE then
    some (false, app)
  else
    match app.file with
    | none => none
    | some f =>
      match storage_file_seek f ((lba * SCSI_BLOCK_SIZE) % U32) o.seek_ok o.stale with
      | (f1, false) => some (false, { app with file := some f1 })
      | (f1, true) =>
        let written := (app.bytes_written + len) % U32
        match storage_file_write f1 buf len o.xfer with
        | (f2, n) =>
          some (decide (n = len), { app with file := some f2, bytes_written := written })

/-- The size callback `file_num_blocks(ctx)`, a `uint32_t`. -/
def file_num_blocks (app : MassStorageApp) : Option Nat :=
  match app.file with
  | none => none
  | some f => some ((storage_file_size f / SCSI_BLOCK_SIZE) % U32)

/-! ## Image creation (`mass_storage_scene_file_name.c`) -/

/-- What the storage service and the allocator do during one call of
`mass_storage_create_image`: success of the open and of the two seeks, the
bytes a grown file exposes, the contents of the buffer `malloc` returned, and
how many bytes the write stores at most. -/
structure CreateOutcome where
  open_ok : Bool
  seek_size_ok : Bool
  seek_zero_ok : Bool
  stale : Nat → Byte
  buffer : List Byte
  xfer : Nat

/-- The routine `mass_storage_create_image(storage, file_path, size)`.  `prev`
is what the path held before the call; the result is the return value and
what the path holds after the file is closed. -/
def mass_storage_create_image (prev : Option (List Byte)) (size : Nat) (o : CreateOutcome) :
    Bool × Option (List Byte) :=
  match storage_file_open_create storage_file_alloc o.open_ok with
  | (_, false) => (false, prev)
  | (f0, true) =>
    match storage_file_seek f0 size o.seek_size_ok o.stale with
    | (f1, false) => (false, some f1.data)
    | (f1, true) =>
      match storage_file_seek f1 0 o.seek_zero_ok o.stale with
      | (f2, false) => (false, some f2.data)
      | (f2, true) =>
        -- if(!storage_file_write(file, buffer, WRITE_BUF_LEN)) break;
        match storage_file_write f2 o.buffer WRITE_BUF_LEN o.xfer with
        | (f3, n) => (decide (n ≠ 0), some f3.data)

/-! ## Statistics of the work view (`mass_storage_view.c`) -/

/-- The numeric fields of `MassStorageModel`, all `uint32_t`. -/
structure MassStorageModel where
  read_speed : Nat
  write_speed : Nat
  bytes_read : Nat
  bytes_written : Nat
  update_time : Nat

/-- The update `mass_storage_set_stats(mass_storage, read, written)`; `now` is
the value `furi_get_tick()` returns.  `none` is a division by zero. -/
def mass_storage_set_stats (model : MassStorageModel) (read written now : Nat) :
    Option MassStorageModel :=
  match div32 (mul32 (sub32 read model.bytes_read) 1000) (sub32 now model.update_time) with
  | none => none
  | some rs =>
    match div32 (mul32 (sub32 written model.bytes_written) 1000)
        (sub32 now model.update_time) with
    | none => none
    | some ws =>
      some { read_speed := rs, write_speed := ws, bytes_read := read,
             bytes_written := written, update_time := now }

/-! ## Entering and leaving the work scene -/

/-- Calls into the firmware that the work scene can make, in the order made.
`mutex_acquire` and `mutex_release` are listed to state ordering properties;
no function of the scene calls them. -/
inductive Effect where
  | show_loading_popup (shown : Bool)
  | switch_to_previous_scene_start
  | mutex_alloc
  | mutex_acquire
  | mutex_release
  | mutex_free
  | set_file_name
  | file_alloc
  | file_open (ok : Bool)
  | crash
  | usb_start
  | usb_stop
  | file_free
  | switch_to_view_work
  deriving DecidableEq

/-- What `mass_storage_scene_work_on_enter` finds: what the chosen path holds,
whether the storage service opens it, and whether the firmware is a debug
build (`FURI_DEBUG`), in which a false `furi_assert` stops the firmware; in a
release build the asserted expression is evaluated and its value dropped. -/
structure EnterOutcome where
  image : Option (List Byte)
  open_ok : Bool
  furi_debug : Bool

/-- The handler `mass_storage_scene_work_on_enter(context)`: the state it
leaves and the firmware calls it makes. -/
def mass_storage_scene_work_on_enter (app : MassStorageApp) (e : EnterOutcome) :
    MassStorageApp × List Effect :=
  let app0 := { app with bytes_read := 0, bytes_written := 0 }
  if !storage_file_exists e.image then
    (app0, [Effect.switch_to_previous_scene_start])
  else
    let app1 := { app0 with usb_mutex := true }
    match storage_file_open_existing storage_file_alloc e.image e.open_ok with
    | (f, opened) =>
      let app2 := { app1 with file := some f }
      let pre := [Effect.show_loading_popup true, Effect.mutex_alloc, Effect.set_file_name,
                  Effect.file_alloc, Effect.file_open opened]
      if !opened && e.furi_debug then
        (app2, pre ++ [Effect.crash])
      else
        ({ app2 with usb := true },
         pre ++ [Effect.usb_start, Effect.show_loading_popup false,
                 Effect.switch_to_view_work])

/-- The handler `mass_storage_scene_work_on_exit(context)`: the state it
leaves and the firmware calls it makes. -/
def mass_storage_scene_work_on_exit (app : MassStorageApp) :
    MassStorageApp × List Effect :=
  let s0 : MassStorageApp × List Effect := (app, [Effect.show_loading_popup true])
  let s1 : MassStorageApp × List Effect :=
    if s0.1.usb_mutex then ({ s0.1 with usb_mutex := false }, s0.2 ++ [Effect.mutex_free])
    else s0
  let s2 : MassStorageApp × List Effect :=
    if s1.1.usb then ({ s1.1 with usb := false }, s1.2 ++ [Effect.usb_stop]) else s1
  let s3 : MassStorageApp × List Effect :=
    if s2.1.file.isSome then ({ s2.1 with file := none }, s2.2 ++ [Effect.file_free])
    else s2
  (s3.1, s3.2 ++ [Effect.show_loading_popup false])

/-- Position of the first occurrence of `a` in a sequence of firmware calls
lies before the first occurrence of `b`, and `b` occurs. -/
def occursBefore (a b : Effect) (tr : List Effect) : Prop :=
  tr.indexOf a < tr.indexOf b ∧ b ∈ tr

instance (a b : Effect) (tr : List Effect) : Decidable (occursBefore a b tr) := by
  unfold occursBefore; infer_instance

/-! ## Sessions: sequences of block callbacks -/

/-- One invocation of a block callback by the transport, with its arguments
and what the storage service does during it. -/
inductive Call where
  | read (lba count out_cap : Nat) (o : Outcome)
  | write (lba count : Nat) (buf : List Byte) (len : Nat) (o : Outcome)

/-- State of the application after one callback. -/
def Call.apply (app : MassStorageApp) : Call → Option MassStorageApp
  | Call.read lba count out_cap o => (file_read app lba count out_cap o).map (fun r => r.app)
  | Call.write lba count buf len o => (file_write app lba count buf len o).map (fun r => r.2)

/-- Bytes one callback adds to `bytes_read` and to `bytes_written`, before any
reduction modulo `U32`: what the read obtained, and the `len` of a write that
passed the length check and the seek. -/
def Call.added (app : MassStorageApp) : Call → Nat × Nat
  | Call.read lba count out_cap o =>
    match file_read app lba count out_cap o with
    | some r => (r.out_len.getD 0, 0)
    | none => (0, 0)
  | Call.write _ count _ len o =>
    (0, if len = count * SCSI_BLOCK_SIZE ∧ o.seek_ok = true ∧ app.file.isSome then len else 0)

/-- States after each callback of a sequence, in order. -/
def session (app : MassStorageApp) : List Call → Option (List MassStorageApp)
  | [] => some []
  | c :: cs =>
    match c.apply app with
    | none => none
    | some app1 => (session app1 cs).map (fun tr => app1 :: tr)

/-- Bytes a sequence of callbacks adds to the two counters in total, without
reduction modulo `U32`. -/
def transferred (app : MassStorageApp) : List Call → Nat × Nat
  | [] => (0, 0)
  | c :: cs =>
    let t := transferred ((c.apply app).getD app) cs
    ((c.added app).1 + t.1, (c.added app).2 + t.2)

/-- Neither counter of `b` is below that of `a`. -/
def countersLe (a b : MassStorageApp) : Prop :=
  a.bytes_read ≤ b.bytes_read ∧ a.bytes_written ≤ b.bytes_written

instance (a b : MassStorageApp) : Decidable (countersLe a b) := by
  unfold countersLe; infer_instance

/-- The length `file_read` asks the file for: the value of its local
`uint16_t clamp = MIN(out_cap, count * SCSI_BLOCK_SIZE)`. -/
def file_read_clamp (count out_cap : Nat) : Nat :=
  (MIN out_cap (count * SCSI_BLOCK_SIZE)) % U16

/-! ## The start scene (`mass_storage_scene_start.c`) -/

/-- The table `image_size`: display name and size in bytes of each image the
operator can create. -/
def image_size : List (String × Nat) :=
  [("1.44M", 1440 * 1024),
   ("2M", 2 * 1024 * 1024),
   ("4M", 4 * 1024 * 1024),
   ("8M", 8 * 1024 * 1024),
   ("16M", 16 * 1024 * 1024),
   ("32M", 32 * 1024 * 1024),
   ("64M", 64 * 1024 * 1024),
   ("128M", 128 * 1024 * 1024),
   ("256M", 256 * 1024 * 1024),
   ("512M", 512 * 1024 * 1024),
   ("700M", 700 * 1024 * 1024),
   ("1G", 1024 * 1024 * 1024),
   ("2G", 2 * 1024 * 1024 * 1024)]

/-- The callback `mass_storage_image_size(item)`: the value it stores in
`app->new_file_size` when the item stands at `index`.  `none` is a read
outside the table. -/
def mass_storage_image_size (index : Nat) : Option Nat :=
  (image_size[index]?).map (fun p => p.2)

/-- The handler `mass_storage_scene_start_on_enter(context)`: the value it
leaves in `app->new_file_size`, that of the preselected third entry. -/
def mass_storage_scene_start_on_enter : Option Nat :=
  (image_size[2]?).map (fun p => p.2)

/-- A size the operator can select for a new image: one stored by
`mass_storage_image_size` for some index, or the one set on entering the
start scene. -/
def selectable (S : Nat) : Prop :=
  (∃ index, mass_storage_image_size index = some S) ∨
    mass_storage_scene_start_on_enter = some S

/-! ## Facts about the storage service -/

theorem MIN_eq_min (a b : Nat) : MIN a b = min a b := by
  unfold MIN
  split <;> omega

theorem storage_file_seek_ok (f : File) (offset : Nat) (stale : Nat → Byte) :
    storage_file_seek f offset true stale =
      ({ data := f.data ++ (List.range' f.data.length (offset - f.data.length)).map stale,
         pos := offset }, true) := by
  simp [storage_file_seek]

theorem storage_file_seek_fail (f : File) (offset : Nat) (stale : Nat → Byte) :
    storage_file_seek f offset false stale = (f, false) := by
  simp [storage_file_seek]

theorem storage_file_seek_within (f : File) (offset : Nat) (stale : Nat → Byte)
    (h : offset ≤ f.data.length) :
    storage_file_seek f offset true stale = ({ data := f.data, pos := offset }, true) := by
  have h0 : offset - f.data.length = 0 := by omega
  simp [storage_file_seek, h0]

theorem storage_file_read_length_le (f : File) (len xfer : Nat) :
    (storage_file_read f len xfer).2.length ≤ len := by
  simp only [storage_file_read, MIN_eq_min, List.length_take, List.length_drop]
  omega

/-! ## The read callback -/

/-- C1 — `file_read` at `lba = 0`, `count = 128`, `out_cap = 65536` on a file
of 65536 bytes whose seek succeeds and whose storage service would transfer
65536 bytes: `count × 512 = 65536 ≤ out_cap` and the file is long enough, yet
the 16-bit `clamp` is 0, so the callback asks the file for no byte, stores 0
through `out_len`, leaves `bytes_read` at 0 and returns true. -/
theorem file_read_128_blocks_obtains_nothing :
    128 * SCSI_BLOCK_SIZE ≤ 65536 ∧
    0 * SCSI_BLOCK_SIZE + 128 * SCSI_BLOCK_SIZE ≤ (List.replicate 65536 (0 : Byte)).length ∧
    (file_read { file := some { data := List.replicate 65536 0, pos := 0 }, usb_mutex := true,
                 usb := true, bytes_read := 0, bytes_written := 0 }
        0 128 65536 { seek_ok := true, stale := fun _ => 0, xfer := 65536 }).map
      (fun r => (r.ret, r.out_len, r.out, r.app.bytes_read)) = some (true, some 0, [], 0) := by
  refine ⟨by decide, ?_, by decide⟩
  rw [List.length_replicate]
  decide

/-- Below 128 blocks the 16-bit `clamp` is exact: when `count × 512` fits the
caller's buffer and is less than 65536, the seek succeeds, the file holds
`count × 512` bytes at the block offset and the storage service transfers
them, `file_read` stores `count × 512` through `out_len` and returns true. -/
theorem file_read_full (app : MassStorageApp) (f : File) (lba count out_cap : Nat)
    (o : Outcome) (hf : app.file = some f) (hcap : count * 512 ≤ out_cap)
    (h16 : count * 512 < 65536) (hseek : o.seek_ok = true)
    (hlen : (lba * 512) % U32 + count * 512 ≤ f.data.length)
    (hx : count * 512 ≤ o.xfer) :
    ∃ r, file_read app lba count out_cap o = some r ∧ r.ret = true ∧
      r.out_len = some (count * 512) ∧
      r.out = (f.data.drop ((lba * 512) % U32)).take (count * 512) ∧
      r.app.bytes_read = (app.bytes_read + count * 512) % U32 ∧
      r.app.bytes_written = app.bytes_written := by
  have hmin : MIN out_cap (count * 512) % 65536 = count * 512 := by
    rw [MIN_eq_min, Nat.min_eq_right hcap, Nat.mod_eq_of_lt h16]
  have hmin2 : MIN (count * 512) o.xfer = count * 512 := by
    rw [MIN_eq_min, Nat.min_eq_left hx]
  have hw : (lba * 512) % U32 ≤ f.data.length := by omega
  have hgot : ((f.data.drop ((lba * 512) % U32)).take (count * 512)).length = count * 512 := by
    simp only [List.length_take, List.length_drop]
    omega
  simp only [file_read, hf, hseek, SCSI_BLOCK_SIZE, U16, storage_file_seek_within f _ _ hw,
    storage_file_read, hmin, hmin2, hgot]
  simp

/-! ## The statistics update -/

/-- Whatever the totals, a sample taken at the tick already stored in
`update_time` divides by zero. -/
theorem mass_storage_set_stats_same_tick (model : MassStorageModel) (read written : Nat)
    (ht : model.update_time < U32) :
    mass_storage_set_stats model read written model.update_time = none := by
  have h0 : sub32 model.update_time model.update_time = 0 := by
    unfold sub32
    rw [Nat.mod_eq_of_lt ht]
    unfold U32 at *
    omega
  simp [mass_storage_set_stats, div32, h0]

/-- C2 — `mass_storage_set_stats` with stored `update_time = 1000` sampled at
tick 1000 (elapsed 0): the divisor `now - model->update_time` is 0, the update
is a division by zero, and no state with the earlier speeds 7 and 9 results. -/
theorem mass_storage_set_stats_elapsed_zero_faults :
    sub32 1000 1000 = 0 ∧
    mass_storage_set_stats
      { read_speed := 7, write_speed := 9, bytes_read := 100, bytes_written := 200,
        update_time := 1000 } 100 200 1000 = none := by
  exact ⟨by decide, rfl⟩

/-! ## The write callback -/

/-- C3 — for every call of `file_write` with `len ≠ count × 512` the callback
returns false and the application state (backing file contents, length and
position, `bytes_written`, `bytes_read`) is the one before the call. -/
theorem file_write_rejects_length_mismatch (app : MassStorageApp) (lba count : Nat)
    (buf : List Byte) (len : Nat) (o : Outcome) (h : len ≠ count * 512) :
    file_write app lba count buf len o = some (false, app) := by
  simp [file_write, SCSI_BLOCK_SIZE, h]

theorem file_write_rejects_length_mismatch_witness :
    (513 : Nat) ≠ 1 * 512 ∧
    file_write { file := some { data := [1, 2, 3], pos := 0 }, usb_mutex := true, usb := true,
                 bytes_read := 5, bytes_written := 6 } 0 1 [] 513
        { seek_ok := true, stale := fun _ => 0, xfer := 513 } =
      some (false, { file := some { data := [1, 2, 3], pos := 0 }, usb_mutex := true,
                     usb := true, bytes_read := 5, bytes_written := 6 }) :=
  ⟨by decide, file_write_rejects_length_mismatch _ 0 1 [] 513 _ (by decide)⟩

/-! ## Image creation -/

/-- A call of `mass_storage_create_image` that returns true had its open and
both seeks succeed and its write store at least one byte; the file then holds
the bytes stored followed by the rest of the region the first seek grew. -/
theorem mass_storage_create_image_true (prev : Option (List Byte)) (size : Nat)
    (o : CreateOutcome) (h : (mass_storage_create_image prev size o).1 = true) :
    o.open_ok = true ∧ o.seek_size_ok = true ∧ o.seek_zero_ok = true ∧
    (o.buffer.take (MIN WRITE_BUF_LEN o.xfer)).length ≠ 0 ∧
    (mass_storage_create_image prev size o).2 =
      some (o.buffer.take (MIN WRITE_BUF_LEN o.xfer) ++
        ((List.range' 0 size).map o.stale).drop
          (o.buffer.take (MIN WRITE_BUF_LEN o.xfer)).length) := by
  unfold mass_storage_create_image at h ⊢
  cases h1 : o.open_ok <;> cases h2 : o.seek_size_ok <;> cases h3 : o.seek_zero_ok <;>
    simp_all [storage_file_open_create, storage_file_seek, storage_file_write,
      storage_file_alloc]

/-- The result of `mass_storage_create_image` when the open and both seeks
succeed. -/
theorem mass_storage_create_image_all_ok (prev : Option (List Byte)) (size : Nat)
    (stale : Nat → Byte) (buffer : List Byte) (xfer : Nat) :
    mass_storage_create_image prev size
      { open_ok := true, seek_size_ok := true, seek_zero_ok := true, stale := stale,
        buffer := buffer, xfer := xfer } =
      (decide ((buffer.take (MIN WRITE_BUF_LEN xfer)).length ≠ 0),
       some (buffer.take (MIN WRITE_BUF_LEN xfer) ++
        ((List.range' 0 size).map stale).drop (buffer.take (MIN WRITE_BUF_LEN xfer)).length)) := by
  simp [mass_storage_create_image, storage_file_open_create, storage_file_seek,
    storage_file_write, storage_file_alloc]

/-- Number of bytes the write of image creation stores, for a buffer of at
least `WRITE_BUF_LEN` bytes. -/
theorem create_stored_length (buffer : List Byte) (xfer : Nat)
    (hb : WRITE_BUF_LEN ≤ buffer.length) :
    (buffer.take (MIN WRITE_BUF_LEN xfer)).length = min WRITE_BUF_LEN xfer := by
  simp only [List.length_take, MIN_eq_min]
  omega

theorem storage_write_stored_le (buf : List Byte) (xfer : Nat) :
    (buf.take (MIN WRITE_BUF_LEN xfer)).length ≤ 4096 := by
  simp only [List.length_take, MIN_eq_min, WRITE_BUF_LEN]
  omega

/-- Length of the file a successful `mass_storage_create_image` leaves: the
requested size, or the number of bytes the write stored if that is more. -/
theorem mass_storage_create_image_length (prev : Option (List Byte)) (size : Nat)
    (o : CreateOutcome) (h : (mass_storage_create_image prev size o).1 = true) :
    ∃ d, (mass_storage_create_image prev size o).2 = some d ∧
      d.length = max size (o.buffer.take (MIN WRITE_BUF_LEN o.xfer)).length := by
  obtain ⟨_, _, _, _, hd⟩ := mass_storage_create_image_true prev size o h
  refine ⟨_, hd, ?_⟩
  simp only [List.length_append, List.length_drop, List.length_map, List.length_range']
  omega

/-- A write that stores `k` bytes, with `0 < k < WRITE_BUF_LEN` and `k` below
the requested size, makes image creation return true although byte `k` of the
file is the stale byte of the grown region. -/
theorem mass_storage_create_image_short_write (prev : Option (List Byte)) (size k : Nat)
    (stale : Nat → Byte) (buffer : List Byte) (hk0 : 0 < k) (hk : k < WRITE_BUF_LEN)
    (hb : WRITE_BUF_LEN ≤ buffer.length) (hs : k < size) :
    (mass_storage_create_image prev size
      { open_ok := true, seek_size_ok := true, seek_zero_ok := true, stale := stale,
        buffer := buffer, xfer := k }).1 = true ∧
    (mass_storage_create_image prev size
      { open_ok := true, seek_size_ok := true, seek_zero_ok := true, stale := stale,
        buffer := buffer, xfer := k }).2.bind (fun d => d[k]?) = some (stale k) := by
  have hl : (buffer.take (MIN WRITE_BUF_LEN k)).length = k := by
    rw [create_stored_length buffer k hb]
    omega
  rw [mass_storage_create_image_all_ok]
  refine ⟨by simp only [hl]; simpa using Nat.pos_iff_ne_zero.mp hk0, ?_⟩
  simp only [hl, Option.some_bind]
  rw [List.getElem?_append_right (by omega)]
  simp [hl, List.getElem?_drop, hs]

/-- The block count seen after creating an image and entering the work scene
on it with a successful open. -/
theorem create_image_enter_num_blocks (prev : Option (List Byte)) (N : Nat)
    (o : CreateOutcome) (app : MassStorageApp) (e : EnterOutcome)
    (hs : (mass_storage_create_image prev N o).1 = true)
    (hi : e.image = (mass_storage_create_image prev N o).2) (ho : e.open_ok = true) :
    file_num_blocks (mass_storage_scene_work_on_enter app e).1 =
      some ((max N (o.buffer.take (MIN WRITE_BUF_LEN o.xfer)).length / 512) % U32) := by
  obtain ⟨d, hd, hl⟩ := mass_storage_create_image_length prev N o hs
  rw [hd] at hi
  simp [mass_storage_scene_work_on_enter, storage_file_exists, hi, ho,
    storage_file_open_existing, file_num_blocks, storage_file_size, SCSI_BLOCK_SIZE, hl]

/-- C4 — `mass_storage_create_image` for a 4 MiB image when open and seeks
succeed, the buffer is all zero and the write stores 1 byte of the 4096: the
routine returns true, and the second byte of the file is the stale byte 255
of the grown region, not zero. -/
theorem mass_storage_create_image_short_write_succeeds :
    (mass_storage_create_image none 4194304
      { open_ok := true, seek_size_ok := true, seek_zero_ok := true, stale := fun _ => 255,
        buffer := List.replicate 4096 0, xfer := 1 }).1 = true ∧
    (mass_storage_create_image none 4194304
      { open_ok := true, seek_size_ok := true, seek_zero_ok := true, stale := fun _ => 255,
        buffer := List.replicate 4096 0, xfer := 1 }).2.bind (fun d => d[1]?) = some 255 :=
  mass_storage_create_image_short_write none 4194304 1 (fun _ => 255) (List.replicate 4096 0)
    (by decide) (by decide) (by rw [List.length_replicate]; decide) (by decide)

/-- An image creation whose open, seeks and write all succeed in full, from a
buffer of `WRITE_BUF_LEN` bytes, returns true. -/
theorem mass_storage_create_image_full_write (prev : Option (List Byte)) (size : Nat)
    (stale : Nat → Byte) (buffer : List Byte) (hb : WRITE_BUF_LEN ≤ buffer.length) :
    (mass_storage_create_image prev size
      { open_ok := true, seek_size_ok := true, seek_zero_ok := true, stale := stale,
        buffer := buffer, xfer := WRITE_BUF_LEN }).1 = true := by
  have hl := create_stored_length buffer WRITE_BUF_LEN hb
  rw [mass_storage_create_image_all_ok]
  simp only [hl]
  decide

/-- C5, as stated, fails for a size below 4096: creating an image of `N = 1`
byte with every operation succeeding in full returns true, and
`file_num_blocks` on the opened file is 8, not `1 / 512 = 0`. -/
theorem create_one_byte_image_has_eight_blocks :
    (mass_storage_create_image none 1
      { open_ok := true, seek_size_ok := true, seek_zero_ok := true, stale := fun _ => 0,
        buffer := List.replicate 4096 0, xfer := WRITE_BUF_LEN }).1 = true ∧
    file_num_blocks
      (mass_storage_scene_work_on_enter
        { file := none, usb_mutex := false, usb := false, bytes_read := 0, bytes_written := 0 }
        { image := (mass_storage_create_image none 1
            { open_ok := true, seek_size_ok := true, seek_zero_ok := true, stale := fun _ => 0,
              buffer := List.replicate 4096 0, xfer := WRITE_BUF_LEN }).2,
          open_ok := true, furi_debug := false }).1 = some 8 ∧
    (some 8 : Option Nat) ≠ some (1 / 512) := by
  have hb : WRITE_BUF_LEN ≤ (List.replicate 4096 (0 : Byte)).length := by
    rw [List.length_replicate]; decide
  have hs := mass_storage_create_image_full_write none 1 (fun _ => 0) (List.replicate 4096 0) hb
  refine ⟨hs, ?_, by decide⟩
  rw [create_image_enter_num_blocks none 1 _ _ _ hs rfl rfl]
  simp only [create_stored_length _ _ hb]
  decide

/-- C5 — for every size `N` of at least 4096 bytes (a `uint32_t`), if
`mass_storage_create_image(path, N)` returns true, then entering the work
scene on the resulting file with a successful open makes `file_num_blocks`
return `N / 512`, whatever the write stored. -/
theorem create_image_then_num_blocks (prev : Option (List Byte)) (N : Nat)
    (o : CreateOutcome) (app : MassStorageApp) (e : EnterOutcome)
    (hN : 4096 ≤ N) (h32 : N < U32)
    (hs : (mass_storage_create_image prev N o).1 = true)
    (hi : e.image = (mass_storage_create_image prev N o).2) (ho : e.open_ok = true) :
    file_num_blocks (mass_storage_scene_work_on_enter app e).1 = some (N / 512) := by
  have hk := storage_write_stored_le o.buffer o.xfer
  have hlt : N / 512 < U32 := lt_of_le_of_lt (Nat.div_le_self N 512) h32
  rw [create_image_enter_num_blocks prev N o app e hs hi ho, Nat.max_eq_left (by omega),
    Nat.mod_eq_of_lt hlt]

theorem create_image_then_num_blocks_witness :
    4096 ≤ 4194304 ∧ 4194304 < U32 ∧
    (mass_storage_create_image none 4194304
      { open_ok := true, seek_size_ok := true, seek_zero_ok := true, stale := fun _ => 0,
        buffer := List.replicate 4096 0, xfer := WRITE_BUF_LEN }).1 = true ∧
    file_num_blocks
      (mass_storage_scene_work_on_enter
        { file := none, usb_mutex := false, usb := false, bytes_read := 0, bytes_written := 0 }
        { image := (mass_storage_create_image none 4194304
            { open_ok := true, seek_size_ok := true, seek_zero_ok := true, stale := fun _ => 0,
              buffer := List.replicate 4096 0, xfer := WRITE_BUF_LEN }).2,
          open_ok := true, furi_debug := false }).1 = some (4194304 / 512) :=
  have hs := mass_storage_create_image_full_write none 4194304 (fun _ => 0)
    (List.replicate 4096 0) (by rw [List.length_replicate]; decide)
  ⟨by decide, by decide, hs,
   create_image_then_num_blocks none 4194304 _ _ _ (by decide) (by decide) hs rfl rfl⟩

/-! ## Binding a session and the single-block round trip -/

/-- State left by `mass_storage_scene_work_on_enter` when the chosen file
exists and opens: counters reset, mutex allocated, file open at position 0,
transport started. -/
theorem mass_storage_scene_work_on_enter_bound (app : MassStorageApp) (e : EnterOutcome)
    (img : List Byte) (hi : e.image = some img) (ho : e.open_ok = true) :
    (mass_storage_scene_work_on_enter app e).1 =
      { file := some { data := img, pos := 0 }, usb_mutex := true, usb := true,
        bytes_read := 0, bytes_written := 0 } := by
  simp [mass_storage_scene_work_on_enter, storage_file_exists, hi, ho,
    storage_file_open_existing]

/-- A `file_write` of exactly `count × 512` bytes inside the file, with seek
and write succeeding in full, returns true, replaces the bytes at the block
offset by `buf` and adds `len` to `bytes_written`. -/
theorem file_write_full (app : MassStorageApp) (f : File) (lba count : Nat) (buf : List Byte)
    (o : Outcome) (hf : app.file = some f) (hb : buf.length = count * 512)
    (hseek : o.seek_ok = true) (hlen : (lba * 512) % U32 ≤ f.data.length)
    (hx : count * 512 ≤ o.xfer) :
    file_write app lba count buf (count * 512) o =
      some (true,
        { app with
          file := some { data := f.data.take ((lba * 512) % U32) ++ buf ++
                           f.data.drop ((lba * 512) % U32 + count * 512),
                         pos := (lba * 512) % U32 + count * 512 },
          bytes_written := (app.bytes_written + count * 512) % U32 }) := by
  have hmin : MIN (count * 512) o.xfer = count * 512 := by
    rw [MIN_eq_min, Nat.min_eq_left hx]
  have htake : buf.take (count * 512) = buf := by
    rw [← hb]; exact List.take_length buf
  simp only [file_write, SCSI_BLOCK_SIZE, hf, hseek, storage_file_seek_within f _ _ hlen,
    storage_file_write, hmin, htake, hb]
  simp

/-- C6 — single-block round trip.  On a session just bound by
`mass_storage_scene_work_on_enter` (counters 0) over an existing image that
opens, for every `lba` with `lba × 512 + 512` within the image and every
512-byte block `b`, when seeks, write and read succeed in full:
`file_write(lba, 1, b, 512)` returns true, the following
`file_read(lba, 1, out, out_cap)` with `out_cap ≥ 512` returns true with 512
bytes obtained, equal to `b`, and afterwards `bytes_written = 512` and
`bytes_read = 512`. -/
theorem single_block_round_trip (app0 : MassStorageApp) (e : EnterOutcome) (img : List Byte)
    (lba : Nat) (b : List Byte) (out_cap : Nat) (wo ro : Outcome)
    (hi : e.image = some img) (ho : e.open_ok = true)
    (hl : lba * 512 + 512 ≤ img.length) (hb : b.length = 512)
    (hws : wo.seek_ok = true) (hwx : 512 ≤ wo.xfer)
    (hrs : ro.seek_ok = true) (hrx : 512 ≤ ro.xfer) (hc : 512 ≤ out_cap) :
    ∃ app1 r,
      file_write (mass_storage_scene_work_on_enter app0 e).1 lba 1 b 512 wo =
        some (true, app1) ∧
      file_read app1 lba 1 out_cap ro = some r ∧
      r.ret = true ∧ r.out_len = some 512 ∧ r.out = b ∧
      r.app.bytes_written = 512 ∧ r.app.bytes_read = 512 := by
  have hoff : (lba * 512) % U32 ≤ lba * 512 := Nat.mod_le _ _
  have hw := file_write_full (mass_storage_scene_work_on_enter app0 e).1
    { data := img, pos := 0 } lba 1 b wo
    (by rw [mass_storage_scene_work_on_enter_bound app0 e img hi ho])
    (by omega) hws (by simp only; omega) (by omega)
  rw [mass_storage_scene_work_on_enter_bound app0 e img hi ho] at hw ⊢
  simp only [Nat.one_mul, Nat.zero_add] at hw
  have hlt : img.length - ((lba * 512) % U32 + 512) + ((lba * 512) % U32 + 512)
      = img.length := by omega
  obtain ⟨r, hr, hret, hol, hout, hbr, hbw⟩ := file_read_full
    { file := some { data := img.take ((lba * 512) % U32) ++ b ++
                       img.drop ((lba * 512) % U32 + 512),
                     pos := (lba * 512) % U32 + 512 },
      usb_mutex := true, usb := true, bytes_read := 0,
      bytes_written := 512 % U32 }
    { data := img.take ((lba * 512) % U32) ++ b ++ img.drop ((lba * 512) % U32 + 512),
      pos := (lba * 512) % U32 + 512 } lba 1 out_cap ro rfl (by omega) (by omega) hrs
    (by simp only [List.length_append, List.length_take, List.length_drop]; omega)
    (by omega)
  refine ⟨_, r, hw, hr, hret, by simpa using hol, ?_, ?_, ?_⟩
  · rw [hout, List.append_assoc,
      List.drop_left' (List.length_take_of_le (by omega)),
      Nat.one_mul, List.take_left' hb]
  · rw [hbw]; show 512 % U32 = 512; decide
  · rw [hbr]; show (0 + 1 * 512) % U32 = 512; decide

theorem single_block_round_trip_witness :
    (0 : Nat) * 512 + 512 ≤ (List.replicate 4194304 (0 : Byte)).length ∧
    (List.replicate 512 (0xAA : Byte)).length = 512 ∧
    ∃ app1 r,
      file_write (mass_storage_scene_work_on_enter
          { file := none, usb_mutex := false, usb := false, bytes_read := 7,
            bytes_written := 9 }
          { image := some (List.replicate 4194304 0), open_ok := true,
            furi_debug := false }).1 0 1 (List.replicate 512 0xAA) 512
          { seek_ok := true, stale := fun _ => 0, xfer := 512 } = some (true, app1) ∧
      file_read app1 0 1 512 { seek_ok := true, stale := fun _ => 0, xfer := 512 } = some r ∧
      r.ret = true ∧ r.out_len = some 512 ∧ r.out = List.replicate 512 0xAA ∧
      r.app.bytes_written = 512 ∧ r.app.bytes_read = 512 :=
  ⟨by rw [List.length_replicate]; decide, List.length_replicate _ _,
   single_block_round_trip _ _ (List.replicate 4194304 0) 0 (List.replicate 512 0xAA) 512
     _ _ rfl rfl (by rw [List.length_replicate]; decide) (List.length_replicate _ _) rfl
     (Nat.le_refl _) rfl (Nat.le_refl _) (Nat.le_refl _)⟩

/-! ## Rates of the statistics update -/

theorem sub32_of_le (a b : Nat) (hb : b ≤ a) (ha : a < U32) : sub32 a b = a - b := by
  unfold sub32 U32 at *
  omega

/-- C7, as stated, fails when the product by 1000 leaves 32 bits: with stored
totals 0 at tick 0, a sample of 5 000 000 bytes read at tick 1000 (elapsed
1000 > 0, totals not below the stored ones) stores `read_speed = 705032`,
whereas `(5000000 - 0) × 1000 / 1000 = 5000000`. -/
theorem mass_storage_set_stats_product_wraps :
    (mass_storage_set_stats
      { read_speed := 0, write_speed := 0, bytes_read := 0, bytes_written := 0,
        update_time := 0 } 5000000 0 1000).map (fun m => m.read_speed) = some 705032 ∧
    (5000000 - 0) * 1000 / (1000 - 0) ≠ 705032 := by
  decide

/-- C7 — for every sample with `update_time < now`, totals not below the
stored totals (all `uint32_t`) and both differences times 1000 below `2^32`,
`mass_storage_set_stats` stores
`read_speed = (read - bytes_read) × 1000 / (now - update_time)` and
`write_speed = (written - bytes_written) × 1000 / (now - update_time)`
exactly, together with the new totals and tick. -/
theorem mass_storage_set_stats_rates (model : MassStorageModel) (read written now : Nat)
    (hnow : now < U32) (ht : model.update_time < now)
    (hr : model.bytes_read ≤ read) (hr32 : read < U32)
    (hw : model.bytes_written ≤ written) (hw32 : written < U32)
    (hro : (read - model.bytes_read) * 1000 < U32)
    (hwo : (written - model.bytes_written) * 1000 < U32) :
    mass_storage_set_stats model read written now =
      some { read_speed := (read - model.bytes_read) * 1000 / (now - model.update_time),
             write_speed := (written - model.bytes_written) * 1000 / (now - model.update_time),
             bytes_read := read, bytes_written := written, update_time := now } := by
  have he : now - model.update_time ≠ 0 := by omega
  simp only [mass_storage_set_stats, sub32_of_le read _ hr hr32, sub32_of_le written _ hw hw32,
    sub32_of_le now _ (Nat.le_of_lt ht) hnow, mul32, Nat.mod_eq_of_lt hro,
    Nat.mod_eq_of_lt hwo, div32, if_neg he]

theorem mass_storage_set_stats_rates_witness :
    (2000 : Nat) < U32 ∧ (1000 : Nat) < 2000 ∧ (4096 : Nat) ≤ 4096 ∧ (4096 : Nat) < U32 ∧
    (512 : Nat) ≤ 1536 ∧ (1536 : Nat) < U32 ∧
    (4096 - 4096) * 1000 < U32 ∧ (1536 - 512) * 1000 < U32 ∧
    mass_storage_set_stats
      { read_speed := 11, write_speed := 13, bytes_read := 4096, bytes_written := 512,
        update_time := 1000 } 4096 1536 2000 =
      some { read_speed := 0, write_speed := 1024, bytes_read := 4096, bytes_written := 1536,
             update_time := 2000 } :=
  ⟨by decide, by decide, by decide, by decide, by decide, by decide, by decide, by decide,
   mass_storage_set_stats_rates
     { read_speed := 11, write_speed := 13, bytes_read := 4096, bytes_written := 512,
       update_time := 1000 } 4096 1536 2000
     (by decide) (by decide) (by decide) (by decide) (by decide) (by decide) (by decide)
     (by decide)⟩

/-! ## Counters over a session -/

theorem getLast_getD_cons {α : Type} (l : List α) :
    ∀ (a d : α), (a :: l).getLast?.getD d = l.getLast?.getD a := by
  induction l with
  | nil => intro a d; rfl
  | cons b l ih =>
    intro a d
    rw [List.getLast?_cons_cons, ih b d, ih b a]

/-- One callback on a bound session returns, keeps the file bound, and, when
the bytes it adds do not carry a counter past `U32 - 1`, leaves each counter
at its earlier value plus the bytes added. -/
theorem Call.apply_counters (app : MassStorageApp) (f : File) (c : Call)
    (hf : app.file = some f)
    (hr : app.bytes_read + (c.added app).1 < U32)
    (hw : app.bytes_written + (c.added app).2 < U32) :
    ∃ app1 f1, c.apply app = some app1 ∧ app1.file = some f1 ∧
      app1.bytes_read = app.bytes_read + (c.added app).1 ∧
      app1.bytes_written = app.bytes_written + (c.added app).2 := by
  cases c with
  | read lba count out_cap o =>
    cases hs : o.seek_ok with
    | false =>
      simp [Call.apply, Call.added, file_read, hf, hs, storage_file_seek]
    | true =>
      simp only [Call.added, file_read, hf, hs, storage_file_seek_ok, storage_file_read,
        Option.getD_some] at hr
      simp only [Call.apply, Call.added, file_read, hf, hs, storage_file_seek_ok,
        storage_file_read, Option.map_some', Option.getD_some, Nat.add_zero]
      exact ⟨_, _, rfl, rfl, Nat.mod_eq_of_lt hr, rfl⟩
  | write lba count buf len o =>
    by_cases hl : len = count * SCSI_BLOCK_SIZE
    · cases hs : o.seek_ok with
      | false =>
        simp [Call.apply, Call.added, file_write, hf, hs, hl, storage_file_seek]
      | true =>
        simp only [Call.added, hl, hs, hf, Option.isSome_some, and_self, if_true] at hw
        simp only [Call.apply, Call.added, file_write, hf, hs, hl, storage_file_seek_ok,
          storage_file_write, Option.map_some', Option.isSome_some, and_self, if_true,
          ne_eq, not_true_eq_false, if_false, Nat.add_zero]
        exact ⟨_, _, rfl, rfl, rfl, Nat.mod_eq_of_lt hw⟩
    · simp [Call.apply, Call.added, file_write, hf, hl]

/-- Over a sequence of callbacks on a bound session whose added bytes keep
both counters below `U32`, every callback returns, no counter ever goes down,
and the counters end at their start values plus the bytes added. -/
theorem session_counters (calls : List Call) :
    ∀ (app : MassStorageApp) (f : File), app.file = some f →
      app.bytes_read + (transferred app calls).1 < U32 →
      app.bytes_written + (transferred app calls).2 < U32 →
      ∃ tr, session app calls = some tr ∧ tr.length = calls.length ∧
        List.Chain countersLe app tr ∧
        (tr.getLast?.getD app).bytes_read = app.bytes_read + (transferred app calls).1 ∧
        (tr.getLast?.getD app).bytes_written =
          app.bytes_written + (transferred app calls).2 := by
  induction calls with
  | nil =>
    intro app f _ _ _
    exact ⟨[], rfl, rfl, List.Chain.nil, rfl, rfl⟩
  | cons c cs ih =>
    intro app f hf hr hw
    simp only [transferred] at hr hw
    obtain ⟨app1, f1, h1, hf1, hr1, hw1⟩ :=
      Call.apply_counters app f c hf (by omega) (by omega)
    rw [h1, Option.getD_some] at hr hw
    obtain ⟨tr, htr, hlen, hch, hlr, hlw⟩ := ih app1 f1 hf1 (by omega) (by omega)
    refine ⟨app1 :: tr, ?_, ?_, ?_, ?_, ?_⟩
    · simp [session, h1, htr]
    · simp [hlen]
    · exact List.Chain.cons ⟨by omega, by omega⟩ hch
    · rw [getLast_getD_cons, hlr]
      simp only [transferred, h1, Option.getD_some]
      omega
    · rw [getLast_getD_cons, hlw]
      simp only [transferred, h1, Option.getD_some]
      omega

/-- A `file_write` at block 0 whose seek succeeds and whose write stores
nothing leaves the file as it was and adds `len` to `bytes_written`. -/
theorem Call.apply_failed_write (app : MassStorageApp) (f : File) (count len : Nat)
    (stale : Nat → Byte) (hf : app.file = some f) (hl : len = count * SCSI_BLOCK_SIZE) :
    (Call.write 0 count [] len { seek_ok := true, stale := stale, xfer := 0 }).apply app =
      some { app with file := some { data := f.data, pos := 0 },
                      bytes_written := (app.bytes_written + len) % U32 } := by
  simp [Call.apply, file_write, hf, hl, storage_file_seek, storage_file_write]

/-- Values of `bytes_written` after each of `n` such writes. -/
theorem session_failed_writes (count len : Nat) (stale : Nat → Byte)
    (hl : len = count * SCSI_BLOCK_SIZE) (n : Nat) :
    ∀ (app : MassStorageApp) (f : File), app.file = some f →
      (session app (List.replicate n
        (Call.write 0 count [] len { seek_ok := true, stale := stale, xfer := 0 }))).map
        (fun tr => tr.map (fun a => a.bytes_written)) =
      some ((List.range n).map (fun k => (app.bytes_written + (k + 1) * len) % U32)) := by
  induction n with
  | zero => intro app f _; rfl
  | succ n ih =>
    intro app f hf
    have h1 := Call.apply_failed_write app f count len stale hf hl
    have h2 := ih { app with file := some { data := f.data, pos := 0 },
                             bytes_written := (app.bytes_written + len) % U32 }
      { data := f.data, pos := 0 } rfl
    rw [List.replicate_succ, List.range_succ_eq_map]
    simp only [session, h1]
    cases hs : session { app with file := some { data := f.data, pos := 0 },
                                  bytes_written := (app.bytes_written + len) % U32 }
        (List.replicate n
          (Call.write 0 count [] len { seek_ok := true, stale := stale, xfer := 0 })) with
    | none => rw [hs] at h2; simp at h2
    | some tr =>
      rw [hs] at h2
      simp only [Option.map_some', Option.some.injEq] at h2
      simp only [Option.map_some', List.map_cons, h2, List.map_map, Option.some.injEq,
        Nat.zero_add, Nat.one_mul, List.cons.injEq, true_and]
      apply List.map_congr_left
      intro k _
      simp only [Function.comp_apply, Nat.succ_eq_add_one]
      have hx : (k + 1 + 1) * len = (k + 1) * len + len := by ring
      rw [hx]
      unfold U32
      omega

/-- C8, as stated, fails once a 32-bit counter wraps: on a session bound over
an empty image, 129 calls `file_write(lba = 0, count = 65535, len = 33553920)`
whose seek succeeds (the write itself storing nothing) leave `bytes_written`
at 4294901760 after call 128 and at 33488384 after call 129, a lower value. -/
theorem bytes_written_wraps_in_session :
    (session
      (mass_storage_scene_work_on_enter
        { file := none, usb_mutex := false, usb := false, bytes_read := 0, bytes_written := 0 }
        { image := some [], open_ok := true, furi_debug := false }).1
      (List.replicate 129
        (Call.write 0 65535 [] 33553920 { seek_ok := true, stale := fun _ => 0, xfer := 0 }))).map
      (fun tr => (tr.map (fun a => a.bytes_written)).drop 127) =
        some [4294901760, 33488384] ∧
    (33488384 : Nat) < 4294901760 := by
  refine ⟨?_, by decide⟩
  have h : (session
      (mass_storage_scene_work_on_enter
        { file := none, usb_mutex := false, usb := false, bytes_read := 0, bytes_written := 0 }
        { image := some [], open_ok := true, furi_debug := false }).1
      (List.replicate 129
        (Call.write 0 65535 [] 33553920 { seek_ok := true, stale := fun _ => 0, xfer := 0 }))).map
      (fun tr => tr.map (fun a => a.bytes_written)) =
      some ((List.range 129).map (fun k => (0 + (k + 1) * 33553920) % U32)) :=
    session_failed_writes 65535 33553920 (fun _ => 0) (by decide) 129 _
      { data := [], pos := 0 } rfl
  have hd : ((List.range 129).map (fun k => (0 + (k + 1) * 33553920) % U32)).drop 127 =
      [4294901760, 33488384] := by decide
  have key : ∀ (x : Option (List MassStorageApp)),
      x.map (fun tr => (tr.map (fun a => a.bytes_written)).drop 127) =
        (x.map (fun tr => tr.map (fun a => a.bytes_written))).map (List.drop 127) := by
    intro x; cases x <;> rfl
  rw [key, h, Option.map_some', hd]

/-- C8 — counters over a session, below the wrap.  Starting from the state
`mass_storage_scene_work_on_enter` leaves on a file that exists and opens
(both counters 0), for every finite sequence of `file_read` and `file_write`
calls with arbitrary arguments and outcomes that adds fewer than `2^32` bytes
to each counter, every call returns, `bytes_read` and `bytes_written` after
each call are at least their values before it, and they end at the number of
bytes added. -/
theorem counters_non_decreasing_below_wrap (app0 : MassStorageApp) (e : EnterOutcome)
    (img : List Byte) (calls : List Call)
    (hi : e.image = some img) (ho : e.open_ok = true)
    (hr : (transferred (mass_storage_scene_work_on_enter app0 e).1 calls).1 < U32)
    (hw : (transferred (mass_storage_scene_work_on_enter app0 e).1 calls).2 < U32) :
    ∃ tr, session (mass_storage_scene_work_on_enter app0 e).1 calls = some tr ∧
      tr.length = calls.length ∧
      List.Chain countersLe (mass_storage_scene_work_on_enter app0 e).1 tr ∧
      (tr.getLast?.getD (mass_storage_scene_work_on_enter app0 e).1).bytes_read =
        (transferred (mass_storage_scene_work_on_enter app0 e).1 calls).1 ∧
      (tr.getLast?.getD (mass_storage_scene_work_on_enter app0 e).1).bytes_written =
        (transferred (mass_storage_scene_work_on_enter app0 e).1 calls).2 := by
  have hb := mass_storage_scene_work_on_enter_bound app0 e img hi ho
  have h0r : (mass_storage_scene_work_on_enter app0 e).1.bytes_read = 0 := by rw [hb]
  have h0w : (mass_storage_scene_work_on_enter app0 e).1.bytes_written = 0 := by rw [hb]
  obtain ⟨tr, h1, h2, h3, h4, h5⟩ := session_counters calls
    (mass_storage_scene_work_on_enter app0 e).1 { data := img, pos := 0 } (by rw [hb])
    (by omega) (by omega)
  exact ⟨tr, h1, h2, h3, by omega, by omega⟩

theorem counters_non_decreasing_below_wrap_witness :
    (transferred
      (mass_storage_scene_work_on_enter
        { file := none, usb_mutex := false, usb := false, bytes_read := 3, bytes_written := 4 }
        { image := some [1, 2, 3, 4], open_ok := true, furi_debug := false }).1
      [Call.read 0 1 2 { seek_ok := true, stale := fun _ => 0, xfer := 2 },
       Call.write 0 1 [] 512 { seek_ok := true, stale := fun _ => 0, xfer := 0 },
       Call.read 0 1 4 { seek_ok := true, stale := fun _ => 0, xfer := 4 }]) = (6, 512) ∧
    ∃ tr, session
        (mass_storage_scene_work_on_enter
          { file := none, usb_mutex := false, usb := false, bytes_read := 3,
            bytes_written := 4 }
          { image := some [1, 2, 3, 4], open_ok := true, furi_debug := false }).1
        [Call.read 0 1 2 { seek_ok := true, stale := fun _ => 0, xfer := 2 },
         Call.write 0 1 [] 512 { seek_ok := true, stale := fun _ => 0, xfer := 0 },
         Call.read 0 1 4 { seek_ok := true, stale := fun _ => 0, xfer := 4 }] = some tr ∧
      tr.length = 3 ∧
      List.Chain countersLe
        (mass_storage_scene_work_on_enter
          { file := none, usb_mutex := false, usb := false, bytes_read := 3,
            bytes_written := 4 }
          { image := some [1, 2, 3, 4], open_ok := true, furi_debug := false }).1 tr ∧
      (tr.getLast?.getD
        (mass_storage_scene_work_on_enter
          { file := none, usb_mutex := false, usb := false, bytes_read := 3,
            bytes_written := 4 }
          { image := some [1, 2, 3, 4], open_ok := true, furi_debug := false }).1).bytes_read
        = 6 ∧
      (tr.getLast?.getD
        (mass_storage_scene_work_on_enter
          { file := none, usb_mutex := false, usb := false, bytes_read := 3,
            bytes_written := 4 }
          { image := some [1, 2, 3, 4], open_ok := true, furi_debug := false }).1).bytes_written
        = 512 :=
  ⟨by decide,
   counters_non_decreasing_below_wrap _ _ [1, 2, 3, 4]
     [Call.read 0 1 2 { seek_ok := true, stale := fun _ => 0, xfer := 2 },
      Call.write 0 1 [] 512 { seek_ok := true, stale := fun _ => 0, xfer := 0 },
      Call.read 0 1 4 { seek_ok := true, stale := fun _ => 0, xfer := 4 }]
     rfl rfl (by decide) (by decide)⟩

/-! ## Leaving and entering the work scene -/

/-- C9, as stated, fails: leaving the work scene of a bound session makes the
calls popup-on, `furi_mutex_free`, `mass_storage_usb_stop`,
`storage_file_free`, popup-off, in that order.  The mutex is never acquired,
so no acquisition precedes the stop of the transport, and it is destroyed
before the transport is stopped and before the file is freed. -/
theorem on_exit_destroys_mutex_first :
    (mass_storage_scene_work_on_exit
      { file := some { data := [1, 2], pos := 0 }, usb_mutex := true, usb := true,
        bytes_read := 0, bytes_written := 0 }).2 =
      [Effect.show_loading_popup true, Effect.mutex_free, Effect.usb_stop, Effect.file_free,
       Effect.show_loading_popup false] ∧
    ¬ occursBefore Effect.mutex_acquire Effect.usb_stop
      (mass_storage_scene_work_on_exit
        { file := some { data := [1, 2], pos := 0 }, usb_mutex := true, usb := true,
          bytes_read := 0, bytes_written := 0 }).2 ∧
    ¬ occursBefore Effect.usb_stop Effect.mutex_free
      (mass_storage_scene_work_on_exit
        { file := some { data := [1, 2], pos := 0 }, usb_mutex := true, usb := true,
          bytes_read := 0, bytes_written := 0 }).2 ∧
    ¬ occursBefore Effect.file_free Effect.mutex_free
      (mass_storage_scene_work_on_exit
        { file := some { data := [1, 2], pos := 0 }, usb_mutex := true, usb := true,
          bytes_read := 0, bytes_written := 0 }).2 := by
  decide

/-- C9 — order of unbinding.  Leaving the work scene of a bound session
(mutex allocated, transport running, file open) never acquires or releases
the session mutex; it destroys the mutex first, then stops the transport, and
frees the file handle only after the transport has been stopped; afterwards
the three handles are NULL and the counters are untouched. -/
theorem on_exit_stops_transport_before_freeing_file (app : MassStorageApp) (f : File)
    (hm : app.usb_mutex = true) (hu : app.usb = true) (hf : app.file = some f) :
    Effect.mutex_acquire ∉ (mass_storage_scene_work_on_exit app).2 ∧
    Effect.mutex_release ∉ (mass_storage_scene_work_on_exit app).2 ∧
    occursBefore Effect.mutex_free Effect.usb_stop (mass_storage_scene_work_on_exit app).2 ∧
    occursBefore Effect.usb_stop Effect.file_free (mass_storage_scene_work_on_exit app).2 ∧
    (mass_storage_scene_work_on_exit app).1 =
      { file := none, usb_mutex := false, usb := false, bytes_read := app.bytes_read,
        bytes_written := app.bytes_written } := by
  have ht : (mass_storage_scene_work_on_exit app).2 =
      [Effect.show_loading_popup true, Effect.mutex_free, Effect.usb_stop, Effect.file_free,
       Effect.show_loading_popup false] := by
    simp [mass_storage_scene_work_on_exit, hm, hu, hf]
  have hs : (mass_storage_scene_work_on_exit app).1 =
      { file := none, usb_mutex := false, usb := false, bytes_read := app.bytes_read,
        bytes_written := app.bytes_written } := by
    simp [mass_storage_scene_work_on_exit, hm, hu, hf]
  rw [ht, hs]
  refine ⟨by decide, by decide, by decide, by decide, rfl⟩

theorem on_exit_stops_transport_before_freeing_file_witness :
    Effect.mutex_acquire ∉
      (mass_storage_scene_work_on_exit
        { file := some { data := [1, 2], pos := 0 }, usb_mutex := true, usb := true,
          bytes_read := 512, bytes_written := 1024 }).2 ∧
    Effect.mutex_release ∉
      (mass_storage_scene_work_on_exit
        { file := some { data := [1, 2], pos := 0 }, usb_mutex := true, usb := true,
          bytes_read := 512, bytes_written := 1024 }).2 ∧
    occursBefore Effect.mutex_free Effect.usb_stop
      (mass_storage_scene_work_on_exit
        { file := some { data := [1, 2], pos := 0 }, usb_mutex := true, usb := true,
          bytes_read := 512, bytes_written := 1024 }).2 ∧
    occursBefore Effect.usb_stop Effect.file_free
      (mass_storage_scene_work_on_exit
        { file := some { data := [1, 2], pos := 0 }, usb_mutex := true, usb := true,
          bytes_read := 512, bytes_written := 1024 }).2 ∧
    (mass_storage_scene_work_on_exit
        { file := some { data := [1, 2], pos := 0 }, usb_mutex := true, usb := true,
          bytes_read := 512, bytes_written := 1024 }).1 =
      { file := none, usb_mutex := false, usb := false, bytes_read := 512,
        bytes_written := 1024 } :=
  on_exit_stops_transport_before_freeing_file
    { file := some { data := [1, 2], pos := 0 }, usb_mutex := true, usb := true,
      bytes_read := 512, bytes_written := 1024 } { data := [1, 2], pos := 0 } rfl rfl rfl

/-- C10 — `mass_storage_scene_work_on_enter` on a file that exists but fails
to open.  In a debug build the failed `furi_assert` stops the firmware right
after the open; in a release build the result of the open is dropped, the
transport is started with the callbacks and the work view is entered.  In
neither build does the handler switch back to the Start scene. -/
theorem on_enter_open_failure_does_not_return_to_start :
    (mass_storage_scene_work_on_enter
      { file := none, usb_mutex := false, usb := false, bytes_read := 0, bytes_written := 0 }
      { image := some [1, 2], open_ok := false, furi_debug := true }).2 =
      [Effect.show_loading_popup true, Effect.mutex_alloc, Effect.set_file_name,
       Effect.file_alloc, Effect.file_open false, Effect.crash] ∧
    (mass_storage_scene_work_on_enter
      { file := none, usb_mutex := false, usb := false, bytes_read := 0, bytes_written := 0 }
      { image := some [1, 2], open_ok := false, furi_debug := false }).2 =
      [Effect.show_loading_popup true, Effect.mutex_alloc, Effect.set_file_name,
       Effect.file_alloc, Effect.file_open false, Effect.usb_start,
       Effect.show_loading_popup false, Effect.switch_to_view_work] ∧
    (mass_storage_scene_work_on_enter
      { file := none, usb_mutex := false, usb := false, bytes_read := 0, bytes_written := 0 }
      { image := some [1, 2], open_ok := false, furi_debug := false }).1.usb = true := by
  decide

/-! ## Entering the work scene on a missing file -/

/-- C11 — for every entry into the work scene in which the file at
`file_path` does not exist, the only firmware call is the switch back to the
Start scene: no mutex is allocated, no file object is allocated or opened,
the transport is not started and the work view is not shown; the handles
`file`, `usb_mutex` and `usb` are left as they were and both counters are 0. -/
theorem on_enter_missing_file_returns_to_start (app : MassStorageApp) (e : EnterOutcome)
    (h : e.image = none) :
    (mass_storage_scene_work_on_enter app e).2 = [Effect.switch_to_previous_scene_start] ∧
    Effect.mutex_alloc ∉ (mass_storage_scene_work_on_enter app e).2 ∧
    Effect.file_alloc ∉ (mass_storage_scene_work_on_enter app e).2 ∧
    (∀ ok, Effect.file_open ok ∉ (mass_storage_scene_work_on_enter app e).2) ∧
    Effect.usb_start ∉ (mass_storage_scene_work_on_enter app e).2 ∧
    Effect.switch_to_view_work ∉ (mass_storage_scene_work_on_enter app e).2 ∧
    (mass_storage_scene_work_on_enter app e).1 =
      { file := app.file, usb_mutex := app.usb_mutex, usb := app.usb,
        bytes_read := 0, bytes_written := 0 } := by
  have ht : mass_storage_scene_work_on_enter app e =
      ({ file := app.file, usb_mutex := app.usb_mutex, usb := app.usb,
         bytes_read := 0, bytes_written := 0 },
       [Effect.switch_to_previous_scene_start]) := by
    simp [mass_storage_scene_work_on_enter, storage_file_exists, h]
  have h2 : (mass_storage_scene_work_on_enter app e).2 =
      [Effect.switch_to_previous_scene_start] := by rw [ht]
  have h1 : (mass_storage_scene_work_on_enter app e).1 =
      { file := app.file, usb_mutex := app.usb_mutex, usb := app.usb,
        bytes_read := 0, bytes_written := 0 } := by rw [ht]
  rw [h2, h1]
  refine ⟨rfl, by decide, by decide, ?_, by decide, by decide, rfl⟩
  intro ok
  cases ok <;> decide

theorem on_enter_missing_file_returns_to_start_witness :
    (mass_storage_scene_work_on_enter
      { file := none, usb_mutex := false, usb := false, bytes_read := 5, bytes_written := 6 }
      { image := none, open_ok := true, furi_debug := true }).2 =
      [Effect.switch_to_previous_scene_start] ∧
    Effect.mutex_alloc ∉ (mass_storage_scene_work_on_enter
      { file := none, usb_mutex := false, usb := false, bytes_read := 5, bytes_written := 6 }
      { image := none, open_ok := true, furi_debug := true }).2 ∧
    Effect.file_alloc ∉ (mass_storage_scene_work_on_enter
      { file := none, usb_mutex := false, usb := false, bytes_read := 5, bytes_written := 6 }
      { image := none, open_ok := true, furi_debug := true }).2 ∧
    (∀ ok, Effect.file_open ok ∉ (mass_storage_scene_work_on_enter
      { file := none, usb_mutex := false, usb := false, bytes_read := 5, bytes_written := 6 }
      { image := none, open_ok := true, furi_debug := true }).2) ∧
    Effect.usb_start ∉ (mass_storage_scene_work_on_enter
      { file := none, usb_mutex := false, usb := false, bytes_read := 5, bytes_written := 6 }
      { image := none, open_ok := true, furi_debug := true }).2 ∧
    Effect.switch_to_view_work ∉ (mass_storage_scene_work_on_enter
      { file := none, usb_mutex := false, usb := false, bytes_read := 5, bytes_written := 6 }
      { image := none, open_ok := true, furi_debug := true }).2 ∧
    (mass_storage_scene_work_on_enter
      { file := none, usb_mutex := false, usb := false, bytes_read := 5, bytes_written := 6 }
      { image := none, open_ok := true, furi_debug := true }).1 =
      { file := none, usb_mutex := false, usb := false, bytes_read := 0, bytes_written := 0 } :=
  on_enter_missing_file_returns_to_start
    { file := none, usb_mutex := false, usb := false, bytes_read := 5, bytes_written := 6 }
    { image := none, open_ok := true, furi_debug := true } rfl

/-! ## Seek failure -/

/-- C12 — seek failure is fail-closed.  For every `file_read` and every
`file_write` with `len = count × 512` on a bound file whose seek fails, the
callback returns false and the application state is the one before the call:
`bytes_read` and `bytes_written` are unchanged and the file has the same
contents and position.  `file_read` stores nothing through `out_len` and puts
nothing in `out`; neither result depends on what a read or write would have
transferred, none being issued. -/
theorem seek_failure_fails_closed (app : MassStorageApp) (f : File)
    (lba count out_cap : Nat) (buf : List Byte) (o : Outcome)
    (hf : app.file = some f) (hs : o.seek_ok = false) :
    file_read app lba count out_cap o =
      some { ret := false, out_len := none, out := [], app := app } ∧
    file_write app lba count buf (count * 512) o = some (false, app) := by
  cases app with
  | mk file usb_mutex usb bytes_read bytes_written =>
    simp only at hf
    subst hf
    simp [file_read, file_write, hs, storage_file_seek, SCSI_BLOCK_SIZE]

theorem seek_failure_fails_closed_witness :
    file_read
      { file := some { data := [1, 2, 3], pos := 1 }, usb_mutex := true, usb := true,
        bytes_read := 5, bytes_written := 6 } 7 1 512
      { seek_ok := false, stale := fun _ => 0, xfer := 512 } =
      some { ret := false, out_len := none, out := [],
             app := { file := some { data := [1, 2, 3], pos := 1 }, usb_mutex := true,
                      usb := true, bytes_read := 5, bytes_written := 6 } } ∧
    file_write
      { file := some { data := [1, 2, 3], pos := 1 }, usb_mutex := true, usb := true,
        bytes_read := 5, bytes_written := 6 } 7 1 [9, 9] (1 * 512)
      { seek_ok := false, stale := fun _ => 0, xfer := 512 } =
      some (false, { file := some { data := [1, 2, 3], pos := 1 }, usb_mutex := true,
                     usb := true, bytes_read := 5, bytes_written := 6 }) :=
  seek_failure_fails_closed
    { file := some { data := [1, 2, 3], pos := 1 }, usb_mutex := true, usb := true,
      bytes_read := 5, bytes_written := 6 } { data := [1, 2, 3], pos := 1 } 7 1 512 [9, 9]
    { seek_ok := false, stale := fun _ => 0, xfer := 512 } rfl rfl

/-! ## Accounting of written bytes -/

/-- C13, as stated, fails when the 32-bit counter wraps: with `bytes_written`
at 4294967040, a `file_write(lba = 0, count = 1, len = 512)` whose seek and
write succeed in full returns true and leaves `bytes_written = 256`, which is
not 4294967040 + 512. -/
theorem file_write_counter_wraps :
    (file_write
      { file := some { data := [], pos := 0 }, usb_mutex := true, usb := true,
        bytes_read := 0, bytes_written := 4294967040 } 0 1 (List.replicate 512 0) 512
      { seek_ok := true, stale := fun _ => 0, xfer := 512 }).map
      (fun r => (r.1, r.2.bytes_written)) = some (true, 256) ∧
    (256 : Nat) ≠ 4294967040 + 512 := by
  have h : file_write
      { file := some { data := [], pos := 0 }, usb_mutex := true, usb := true,
        bytes_read := 0, bytes_written := 4294967040 } 0 1 (List.replicate 512 0) 512
      { seek_ok := true, stale := fun _ => 0, xfer := 512 } = _ :=
    file_write_full _ { data := [], pos := 0 } 0 1 (List.replicate 512 0) _ rfl
      (List.length_replicate _ _) rfl (by decide) (by decide)
  rw [h]
  exact ⟨rfl, by decide⟩

/-- C13 — attempted-bytes accounting.  For every `file_write` on a bound file
with `len = count × 512` whose seek succeeds, whatever the write then stores:
`bytes_written` becomes `(bytes_written + len) mod 2^32`, which is
`bytes_written + len` whenever that sum is below `2^32`; `bytes_read` is
unchanged; and the callback returns true exactly when the number of bytes the
write stored equals `len`. -/
theorem file_write_counts_attempted_bytes (app : MassStorageApp) (f : File)
    (lba count : Nat) (buf : List Byte) (len : Nat) (o : Outcome)
    (hf : app.file = some f) (hl : len = count * 512) (hs : o.seek_ok = true) :
    ∃ ok app1, file_write app lba count buf len o = some (ok, app1) ∧
      app1.bytes_written = (app.bytes_written + len) % U32 ∧
      (app.bytes_written + len < U32 → app1.bytes_written = app.bytes_written + len) ∧
      app1.bytes_read = app.bytes_read ∧
      (ok = true ↔
        (storage_file_write (storage_file_seek f ((lba * 512) % U32) true o.stale).1
          buf len o.xfer).2 = len) := by
  subst hl
  refine ⟨decide ((storage_file_write (storage_file_seek f ((lba * 512) % U32) true o.stale).1
      buf (count * 512) o.xfer).2 = count * 512),
    { app with
      file := some (storage_file_write (storage_file_seek f ((lba * 512) % U32) true o.stale).1
        buf (count * 512) o.xfer).1,
      bytes_written := (app.bytes_written + count * 512) % U32 },
    ?_, rfl, fun h => Nat.mod_eq_of_lt h, rfl, ?_⟩
  · simp only [file_write, SCSI_BLOCK_SIZE, hf, hs, ne_eq, not_true_eq_false, if_false,
      storage_file_seek_ok]
  · simp

theorem file_write_counts_attempted_bytes_witness :
    ∃ ok app1,
      file_write
        { file := some { data := [1, 2, 3], pos := 0 }, usb_mutex := true, usb := true,
          bytes_read := 5, bytes_written := 6 } 0 1 [9, 9] 512
        { seek_ok := true, stale := fun _ => 0, xfer := 1 } = some (ok, app1) ∧
      app1.bytes_written = (6 + 512) % U32 ∧
      (6 + 512 < U32 → app1.bytes_written = 6 + 512) ∧
      app1.bytes_read = 5 ∧
      (ok = true ↔
        (storage_file_write
          (storage_file_seek { data := [1, 2, 3], pos := 0 } ((0 * 512) % U32) true
            (fun _ => 0)).1 [9, 9] 512 1).2 = 512) :=
  file_write_counts_attempted_bytes
    { file := some { data := [1, 2, 3], pos := 0 }, usb_mutex := true, usb := true,
      bytes_read := 5, bytes_written := 6 } { data := [1, 2, 3], pos := 0 } 0 1 [9, 9] 512
    { seek_ok := true, stale := fun _ => 0, xfer := 1 } rfl rfl rfl

/-! ## The read request stays within the buffer -/

theorem file_read_clamp_le (count out_cap : Nat) :
    file_read_clamp count out_cap ≤ min (count * 512) out_cap := by
  unfold file_read_clamp
  rw [MIN_eq_min, SCSI_BLOCK_SIZE, Nat.min_comm]
  exact Nat.mod_le _ _

/-- C14 — for every `lba`, `count` and `out_cap`, on a bound file and under
every outcome of the storage service: the length `file_read` asks the file
for (its `clamp`) is at most `min(count × 512, out_cap)`; the bytes put in
`out` and the value stored through `out_len`, if any, are at most that
minimum; and after a successful seek the bytes in `out` are those of a
storage read of exactly `clamp` bytes. -/
theorem file_read_stays_within_buffer (app : MassStorageApp) (f : File)
    (lba count out_cap : Nat) (o : Outcome) (hf : app.file = some f) :
    file_read_clamp count out_cap ≤ min (count * 512) out_cap ∧
    ∃ r, file_read app lba count out_cap o = some r ∧
      r.out.length ≤ min (count * 512) out_cap ∧
      (∀ n, r.out_len = some n → n ≤ min (count * 512) out_cap) ∧
      (o.seek_ok = true →
        r.out = (storage_file_read (storage_file_seek f ((lba * 512) % U32) true o.stale).1
          (file_read_clamp count out_cap) o.xfer).2 ∧
        r.out_len = some r.out.length) := by
  have hc := file_read_clamp_le count out_cap
  refine ⟨hc, ?_⟩
  cases hs : o.seek_ok with
  | false =>
    simp [file_read, hf, hs, storage_file_seek]
  | true =>
    have hle := storage_file_read_length_le
      (storage_file_seek f ((lba * 512) % U32) true o.stale).1
      (file_read_clamp count out_cap) o.xfer
    refine ⟨{ ret := decide ((storage_file_read
                  (storage_file_seek f ((lba * 512) % U32) true o.stale).1
                  (file_read_clamp count out_cap) o.xfer).2.length =
                file_read_clamp count out_cap),
              out_len := some (storage_file_read
                  (storage_file_seek f ((lba * 512) % U32) true o.stale).1
                  (file_read_clamp count out_cap) o.xfer).2.length,
              out := (storage_file_read
                  (storage_file_seek f ((lba * 512) % U32) true o.stale).1
                  (file_read_clamp count out_cap) o.xfer).2,
              app := { app with
                file := some (storage_file_read
                  (storage_file_seek f ((lba * 512) % U32) true o.stale).1
                  (file_read_clamp count out_cap) o.xfer).1,
                bytes_read := (app.bytes_read + (storage_file_read
                  (storage_file_seek f ((lba * 512) % U32) true o.stale).1
                  (file_read_clamp count out_cap) o.xfer).2.length) % U32 } },
      ?_, ?_, ?_, ?_⟩
    · simp only [file_read, hf, hs, SCSI_BLOCK_SIZE, file_read_clamp, storage_file_seek_ok]
    · exact Nat.le_trans hle hc
    · intro n hn
      simp only [Option.some.injEq] at hn
      rw [← hn]
      exact Nat.le_trans hle hc
    · intro _
      exact ⟨rfl, rfl⟩

theorem file_read_stays_within_buffer_witness :
    file_read_clamp 2 700 ≤ min (2 * 512) 700 ∧
    ∃ r, file_read
        { file := some { data := [1, 2, 3], pos := 0 }, usb_mutex := true, usb := true,
          bytes_read := 5, bytes_written := 6 } 0 2 700
        { seek_ok := true, stale := fun _ => 0, xfer := 2 } = some r ∧
      r.out.length ≤ min (2 * 512) 700 ∧
      (∀ n, r.out_len = some n → n ≤ min (2 * 512) 700) ∧
      (true = true →
        r.out = (storage_file_read
          (storage_file_seek { data := [1, 2, 3], pos := 0 } ((0 * 512) % U32) true
            (fun _ => 0)).1 (file_read_clamp 2 700) 2).2 ∧
        r.out_len = some r.out.length) :=
  file_read_stays_within_buffer
    { file := some { data := [1, 2, 3], pos := 0 }, usb_mutex := true, usb := true,
      bytes_read := 5, bytes_written := 6 } { data := [1, 2, 3], pos := 0 } 0 2 700
    { seek_ok := true, stale := fun _ => 0, xfer := 2 } rfl

/-! ## Block count after the file changes -/

/-- A `file_write` of exactly `count × 512` bytes at or past the end of the
file, with seek and write succeeding in full, returns true and leaves a file
that ends with the bytes written. -/
theorem file_write_at_end (app : MassStorageApp) (f : File) (lba count : Nat)
    (buf : List Byte) (o : Outcome) (hf : app.file = some f)
    (hb : buf.length = count * 512) (hs : o.seek_ok = true) (hx : count * 512 ≤ o.xfer)
    (hext : f.data.length ≤ (lba * 512) % U32) :
    ∃ app1 f1, file_write app lba count buf (count * 512) o = some (true, app1) ∧
      app1.file = some f1 ∧ f1.data.length = (lba * 512) % U32 + count * 512 := by
  have hmin : MIN (count * 512) o.xfer = count * 512 := by
    rw [MIN_eq_min, Nat.min_eq_left hx]
  have htake : buf.take (count * 512) = buf := by
    rw [← hb]; exact List.take_length buf
  refine ⟨{ app with
            file := some (storage_file_write
              (storage_file_seek f ((lba * 512) % U32) true o.stale).1 buf (count * 512)
              o.xfer).1,
            bytes_written := (app.bytes_written + count * 512) % U32 },
          (storage_file_write (storage_file_seek f ((lba * 512) % U32) true o.stale).1 buf
            (count * 512) o.xfer).1, ?_, rfl, ?_⟩
  · simp only [file_write, SCSI_BLOCK_SIZE, hf, hs, ne_eq, not_true_eq_false, if_false,
      storage_file_seek_ok, storage_file_write, hmin, htake, hb, decide_True]
  · simp only [storage_file_seek_ok, storage_file_write, hmin, htake, hb,
      List.length_append, List.length_take, List.length_drop, List.length_map,
      List.length_range']
    omega

/-- Block count of a file made of `n` equal bytes. -/
theorem file_num_blocks_replicate (n : Nat) (b : Byte) (p : Nat) (m u : Bool) (r w : Nat) :
    file_num_blocks
      { file := some { data := List.replicate n b, pos := p }, usb_mutex := m, usb := u,
        bytes_read := r, bytes_written := w } = some ((n / 512) % U32) := by
  simp only [file_num_blocks, storage_file_size, SCSI_BLOCK_SIZE, List.length_replicate]

/-- C15, as stated, fails in two ways.  A `file_write` at `lba = 8388609`
(`lba × 512 = 2^32 + 512`) on an empty file seeks to the wrapped offset 512,
past the end; after the successful 512-byte write `file_num_blocks` is 2, not
`(8388609 × 512 + 512) / 512`.  And on a file of `2^41` bytes the 32-bit
result of `file_num_blocks` is 0, not `2^41 / 512`. -/
theorem file_num_blocks_wraps :
    (∃ app1,
      file_write
        { file := some { data := [], pos := 0 }, usb_mutex := true, usb := true,
          bytes_read := 0, bytes_written := 0 } 8388609 1 (List.replicate 512 0) (1 * 512)
        { seek_ok := true, stale := fun _ => 0, xfer := 512 } = some (true, app1) ∧
      file_num_blocks app1 = some 2 ∧
      (2 : Nat) ≠ (8388609 * 512 + 1 * 512) / 512) ∧
    file_num_blocks
      { file := some { data := List.replicate 2199023255552 0, pos := 0 }, usb_mutex := true,
        usb := true, bytes_read := 0, bytes_written := 0 } = some 0 ∧
    (0 : Nat) ≠ 2199023255552 / 512 := by
  refine ⟨?_, (file_num_blocks_replicate 2199023255552 0 0 true true 0 0).trans (by decide),
    by decide⟩
  · obtain ⟨app1, f1, h1, h2, h3⟩ := file_write_at_end
      { file := some { data := [], pos := 0 }, usb_mutex := true, usb := true,
        bytes_read := 0, bytes_written := 0 } { data := [], pos := 0 } 8388609 1
      (List.replicate 512 0) { seek_ok := true, stale := fun _ => 0, xfer := 512 } rfl
      (List.length_replicate _ _) rfl (by decide) (Nat.zero_le _)
    refine ⟨app1, h1, ?_, by decide⟩
    simp only [file_num_blocks, h2, storage_file_size, h3]
    decide

/-- C15 — for every state of a bound backing file of fewer than `2^32` blocks,
`file_num_blocks` returns `length / 512`, a function of the current file
alone; and after a `file_write` with `lba × 512 < 2^32` (and a 16-bit `count`)
that seeks beyond the previous end of the file and writes `len = count × 512`
bytes in full, the next `file_num_blocks` returns `(lba × 512 + len) / 512`. -/
theorem file_num_blocks_follows_length (app : MassStorageApp) (f : File)
    (hf : app.file = some f) (h32 : f.data.length / 512 < U32) :
    file_num_blocks app = some (f.data.length / 512) ∧
    ∀ (lba count : Nat) (buf : List Byte) (o : Outcome),
      lba * 512 < U32 → count < U16 → f.data.length < lba * 512 →
      buf.length = count * 512 → o.seek_ok = true → count * 512 ≤ o.xfer →
      ∃ app1, file_write app lba count buf (count * 512) o = some (true, app1) ∧
        file_num_blocks app1 = some ((lba * 512 + count * 512) / 512) := by
  constructor
  · simp only [file_num_blocks, hf, storage_file_size, SCSI_BLOCK_SIZE, Nat.mod_eq_of_lt h32]
  · intro lba count buf o hlba hcount hext hb hs hx
    have hoff : (lba * 512) % U32 = lba * 512 := Nat.mod_eq_of_lt hlba
    obtain ⟨app1, f1, h1, h2, h3⟩ := file_write_at_end app f lba count buf o hf hb hs hx
      (by rw [hoff]; exact Nat.le_of_lt hext)
    refine ⟨app1, h1, ?_⟩
    rw [hoff] at h3
    have hlt : (lba * 512 + count * 512) / 512 < U32 := by
      unfold U32 U16 at *
      omega
    simp only [file_num_blocks, h2, storage_file_size, SCSI_BLOCK_SIZE, h3,
      Nat.mod_eq_of_lt hlt]

theorem file_num_blocks_follows_length_witness :
    ([1, 2, 3] : List Byte).length / 512 < U32 ∧
    file_num_blocks
      { file := some { data := [1, 2, 3], pos := 0 }, usb_mutex := true, usb := true,
        bytes_read := 0, bytes_written := 0 } = some (([1, 2, 3] : List Byte).length / 512) ∧
    ∃ app1,
      file_write
        { file := some { data := [1, 2, 3], pos := 0 }, usb_mutex := true, usb := true,
          bytes_read := 0, bytes_written := 0 } 1 1 (List.replicate 512 0) (1 * 512)
        { seek_ok := true, stale := fun _ => 0, xfer := 512 } = some (true, app1) ∧
      file_num_blocks app1 = some ((1 * 512 + 1 * 512) / 512) :=
  have h := file_num_blocks_follows_length
    { file := some { data := [1, 2, 3], pos := 0 }, usb_mutex := true, usb := true,
      bytes_read := 0, bytes_written := 0 } { data := [1, 2, 3], pos := 0 } rfl (by decide)
  ⟨by decide, h.1,
   h.2 1 1 (List.replicate 512 0) { seek_ok := true, stale := fun _ => 0, xfer := 512 }
     (by decide) (by decide) (by decide) (List.length_replicate _ _) rfl (by decide)⟩

/-! ## Sizes offered by the start scene -/

/-- A selectable size is one of the values of the table `image_size`. -/
theorem selectable_mem (S : Nat) (h : selectable S) :
    S ∈ image_size.map (fun p => p.2) := by
  have key : ∀ index : Nat,
      (image_size[index]?).map (fun (p : String × Nat) => p.2) = some S →
      S ∈ image_size.map (fun p => p.2) := by
    intro index hi
    cases hp : image_size[index]? with
    | none => rw [hp] at hi; simp at hi
    | some p =>
      rw [hp] at hi
      simp only [Option.map_some', Option.some.injEq] at hi
      exact List.mem_map.mpr ⟨p, List.getElem?_mem hp, hi⟩
  rcases h with ⟨index, hi⟩ | hd
  · exact key index hi
  · exact key 2 hd

/-- Each value of the table fits 32 bits, is at least 4096 and is a multiple
of 512. -/
theorem image_size_values :
    ∀ S ∈ image_size.map (fun p => p.2), S < U32 ∧ 4096 ≤ S ∧ S % 512 = 0 := by
  decide

/-- C16 — every size the operator can select for a new image (each entry of
`image_size`, and the 4 MiB set on entering the start scene) fits `uint32_t`,
is at least 4096 bytes and is a multiple of 512; hence whenever
`mass_storage_create_image` returns true for such a size `S`, the file is
exactly `S` bytes long, and on entering the work scene with a successful open
`file_num_blocks × 512 = S`. -/
theorem selectable_size_gives_exact_image (S : Nat) (hS : selectable S) :
    S < U32 ∧ 4096 ≤ S ∧ S % 512 = 0 ∧
    mass_storage_scene_start_on_enter = some (4 * 1024 * 1024) ∧
    ∀ (prev : Option (List Byte)) (o : CreateOutcome) (app : MassStorageApp)
      (e : EnterOutcome),
      (mass_storage_create_image prev S o).1 = true →
      e.image = (mass_storage_create_image prev S o).2 → e.open_ok = true →
      (∃ d, (mass_storage_create_image prev S o).2 = some d ∧ d.length = S) ∧
      ∃ n, file_num_blocks (mass_storage_scene_work_on_enter app e).1 = some n ∧
        n * 512 = S := by
  obtain ⟨h32, h4096, h512⟩ := image_size_values S (selectable_mem S hS)
  refine ⟨h32, h4096, h512, rfl, ?_⟩
  intro prev o app e hs hi ho
  have hk := storage_write_stored_le o.buffer o.xfer
  obtain ⟨d, hd, hl⟩ := mass_storage_create_image_length prev S o hs
  refine ⟨⟨d, hd, by omega⟩, S / 512, ?_, ?_⟩
  · have hlt : S / 512 < U32 := lt_of_le_of_lt (Nat.div_le_self S 512) h32
    rw [create_image_enter_num_blocks prev S o app e hs hi ho, Nat.max_eq_left (by omega),
      Nat.mod_eq_of_lt hlt]
  · omega

theorem selectable_size_gives_exact_image_witness :
    selectable 2147483648 ∧
    (2147483648 < U32 ∧ 4096 ≤ 2147483648 ∧ 2147483648 % 512 = 0 ∧
     mass_storage_scene_start_on_enter = some (4 * 1024 * 1024) ∧
     ∀ (prev : Option (List Byte)) (o : CreateOutcome) (app : MassStorageApp)
       (e : EnterOutcome),
       (mass_storage_create_image prev 2147483648 o).1 = true →
       e.image = (mass_storage_create_image prev 2147483648 o).2 → e.open_ok = true →
       (∃ d, (mass_storage_create_image prev 2147483648 o).2 = some d ∧
          d.length = 2147483648) ∧
       ∃ n, file_num_blocks (mass_storage_scene_work_on_enter app e).1 = some n ∧
         n * 512 = 2147483648) :=
  ⟨Or.inl ⟨12, rfl⟩, selectable_size_gives_exact_image 2147483648 (Or.inl ⟨12, rfl⟩)⟩

end MassStorage
